import Mathlib

/-!
# threejs-grass: the blade geometry template and the per-frame uniform writers

A shallow embedding of `src/Experience/index.js`:

* `createGeometry` (lines 221-251): the index list of one grass blade, its
  instance count and its bounding sphere;
* `resize` (lines 31-53): viewport sizes, renderer size and pixel ratio, and the
  `resolution` uniform of every registered material;
* `update` (lines 56-73): the `time` uniform of every registered material.

JavaScript numbers are embedded as exact numbers: loop counters and indices as
`Nat` / `Int`, sizes, ratios and times as `ℚ`. Materials are objects with
identity, so the embedding keeps them in a store addressed by references and the
`materials` list holds references, as the JavaScript array does.
-/

namespace Grass

/-! ## Module constants (lines 13-18) -/

/-- The number of blade instances, `const NUM_GRASS = 32 * 1024`. -/
def NUM_GRASS : Int := 32 * 1024

/-- The number of segments of one blade, `const GRASS_SEGMENTS = 6`. -/
def GRASS_SEGMENTS : Int := 6

/-- The vertices of one face of a blade, `(GRASS_SEGMENTS + 1) * 2`. -/
def GRASS_VERTICES : Int := (GRASS_SEGMENTS + 1) * 2

/-- The side of the patch the blades are spread over, `const GRASS_PATCH_SIZE = 25`. -/
def GRASS_PATCH_SIZE : Int := 25

/-- The width of a blade, `const GRASS_WIDTH = 0.25`. -/
def GRASS_WIDTH : ℚ := 1 / 4

/-- The height of a blade, `const GRASS_HEIGHT = 2`. -/
def GRASS_HEIGHT : ℚ := 2

/-! ## Errors -/

/-- The exceptions a call can end with. The source has no `throw` statement, so
the only one is the `TypeError` the engine raises when a value that is not
callable is called. -/
inductive JsError where
  | typeError
  deriving DecidableEq, Repr

/-! ## JavaScript arrays -/

/-- A JavaScript array of numbers: slot `k` is `some v` when it holds `v` and
`none` when it is a hole (a position below `length` that was never assigned). -/
abbrev JsArray := List (Option Int)

/-- The assignment `a[k] = v`: it overwrites slot `k` when `k < a.length`, and
otherwise grows the array to length `k + 1`, leaving holes between the old end
and `k`. -/
def JsArray.assign (a : JsArray) (k : Nat) (v : Int) : JsArray :=
  if k < a.length then a.set k (some v)
  else a ++ List.replicate (k - a.length) none ++ [some v]

/-! ## createGeometry (lines 221-251) -/

/-- A `THREE.Sphere`: a centre and a radius. -/
structure Sphere where
  center : Int × Int × Int
  radius : Int
  deriving DecidableEq, Repr

/-- The fields of the `THREE.InstancedBufferGeometry` that `createGeometry`
sets: `instanceCount`, the list handed to `setIndex`, and `boundingSphere`. -/
structure Geometry where
  instanceCount : Int
  index : JsArray
  boundingSphere : Sphere
  deriving DecidableEq, Repr

/-- One run of the body of the `for` loop (lines 226-242) for counter `i`. -/
def createGeometry.body (VERTICES : Int) (i : Nat) (indices : JsArray) : JsArray :=
  let vi : Int := (i : Int) * 2
  let indices := indices.assign (i * 12 + 0) (vi + 0)
  let indices := indices.assign (i * 12 + 1) (vi + 1)
  let indices := indices.assign (i * 12 + 2) (vi + 2)
  let indices := indices.assign (i * 12 + 3) (vi + 2)
  let indices := indices.assign (i * 12 + 4) (vi + 1)
  let indices := indices.assign (i * 12 + 5) (vi + 3)
  let fi : Int := VERTICES + vi
  let indices := indices.assign (i * 12 + 6) (fi + 2)
  let indices := indices.assign (i * 12 + 7) (fi + 1)
  let indices := indices.assign (i * 12 + 8) (fi + 0)
  let indices := indices.assign (i * 12 + 9) (fi + 3)
  let indices := indices.assign (i * 12 + 10) (fi + 1)
  let indices := indices.assign (i * 12 + 11) (fi + 2)
  indices

/-- The loop `for (let i = 0; i < segments; ++i)` of line 225, entered with
counter `i` and the array built so far. -/
def createGeometry.loop (segments VERTICES : Int) (i : Nat) (indices : JsArray) : JsArray :=
  if (i : Int) < segments then
    createGeometry.loop segments VERTICES (i + 1) (createGeometry.body VERTICES i indices)
  else indices
termination_by (segments - (i : Int)).toNat
decreasing_by omega

/-- The method `createGeometry(segments)`. No statement of it can throw, so the
call always returns. -/
def createGeometry (segments : Int) : Except JsError Geometry :=
  let VERTICES : Int := (segments + 1) * 2
  let indices : JsArray := createGeometry.loop segments VERTICES 0 []
  Except.ok
    { instanceCount := NUM_GRASS
      index := indices
      boundingSphere := { center := (0, 0, 0), radius := 1 + GRASS_PATCH_SIZE * 2 } }

/-- The triangle number `t` of an index list: the values of slots `3t`, `3t+1`
and `3t+2`, when all three are assigned. -/
def triangleAt (index : JsArray) (t : Nat) : Option (Int × Int × Int) :=
  match index[3 * t]?, index[3 * t + 1]?, index[3 * t + 2]? with
  | some (some a), some (some b), some (some c) => some (a, b, c)
  | _, _, _ => none

/-- The twelve indices that the loop body emits for segment `i`, in the order of
the slots `12*i .. 12*i+11`. -/
def segmentBlock (VERTICES : Int) (i : Nat) : JsArray :=
  let vi : Int := (i : Int) * 2
  let fi : Int := VERTICES + vi
  [some (vi + 0), some (vi + 1), some (vi + 2), some (vi + 2), some (vi + 1), some (vi + 3),
   some (fi + 2), some (fi + 1), some (fi + 0), some (fi + 3), some (fi + 1), some (fi + 2)]

/-- The loop invariant of `createGeometry.loop`: after `n` runs of the body the
array has `12 * n` slots and the slots of segment `j < n` hold `segmentBlock j`. -/
def BuiltUpTo (VERTICES : Int) (n : Nat) (a : JsArray) : Prop :=
  a.length = 12 * n ∧
    ∀ j k : Nat, j < n → k < 12 → a[12 * j + k]? = (segmentBlock VERTICES j)[k]?

/-! ## Uniforms, materials and the experience state -/

/-- The values a uniform cell of this program holds: a number, a
`THREE.Vector2`, a `THREE.Vector4` (a component is `none` when it is
`undefined`) or a texture. -/
inductive UValue where
  | num (x : ℚ)
  | vec2 (x y : ℚ)
  | vec4 (x y z w : Option ℚ)
  | texture (id : Nat)
  deriving DecidableEq

/-- The method call `value.set(x, y)` of line 47. `Vector2.set` stores both
components; `Vector4.set` takes four arguments and stores `undefined` for the two
that are missing; a number or a texture has no `set`, and calling it is a
`TypeError`. -/
def UValue.set (v : UValue) (x y : ℚ) : Except JsError UValue :=
  match v with
  | UValue.vec2 _ _ => Except.ok (UValue.vec2 x y)
  | UValue.vec4 _ _ _ _ => Except.ok (UValue.vec4 (some x) (some y) none none)
  | UValue.num _ => Except.error JsError.typeError
  | UValue.texture _ => Except.error JsError.typeError

/-- The `uniforms` object of a material: the value of the cell stored under each
name, `none` for a name without a cell (the property reads `undefined`, which is
falsy; a cell is an object, which is truthy). -/
abbrev Uniforms := String → Option UValue

/-- A `THREE.ShaderMaterial`, as far as `resize` and `update` read it. -/
structure Material where
  uniforms : Uniforms

/-- A reference to a material object. -/
abbrev Ref := Nat

/-- The store of material objects. Each material owns its `uniforms` object and
each cell owns its value, as in `setSky`, `setGround` and `setGrass`. -/
abbrev Store := Ref → Material

/-- The object `this.sizes`. -/
structure Sizes where
  width : ℚ
  height : ℚ
  deriving DecidableEq

/-- The size and the pixel ratio last given to the renderer. -/
structure Renderer where
  width : ℚ
  height : ℚ
  pixelRatio : ℚ
  deriving DecidableEq

/-- The properties of `window` that `resize` reads. -/
structure Window where
  innerWidth : ℚ
  innerHeight : ℚ
  devicePixelRatio : ℚ
  deriving DecidableEq

/-- The fields of an `Experience` that `resize` and `update` read or write:
the `materials` array (references, in registration order), the material objects,
`sizes` and the renderer. -/
structure Experience where
  materials : List Ref
  store : Store
  sizes : Sizes
  renderer : Renderer

/-- The write `material.uniforms[name] = ...value...` seen from the store: the
cell `name` of material `material` now holds `v`. -/
def Store.write (store : Store) (material : Ref) (name : String) (v : UValue) : Store :=
  Function.update store material
    { uniforms := Function.update (store material).uniforms name (some v) }

/-- The body of the loop of `resize` (lines 46-51) for one entry of `materials`.
A call of `set` that throws has written nothing, so the error comes without a
new store. The two products are exact here; the code rounds them to doubles. -/
def resize.body (sizes : Sizes) (window : Window) (store : Store) (material : Ref) :
    Except JsError Store :=
  match (store material).uniforms "resolution" with
  | some value =>
    match value.set (sizes.width * window.devicePixelRatio)
        (sizes.height * window.devicePixelRatio) with
    | Except.ok value2 => Except.ok (store.write material "resolution" value2)
    | Except.error e => Except.error e
  | none => Except.ok store

/-- The loop `for (const material of this.materials)` of `resize` (line 45).
The vectors are written in place, so when the body throws the loop ends with the
error and the store as the earlier runs of the body left it. -/
def resize.loop (sizes : Sizes) (window : Window) :
    List Ref → Store → Except (JsError × Store) Store
  | [], store => Except.ok store
  | material :: rest, store =>
    match resize.body sizes window store material with
    | Except.ok store2 => resize.loop sizes window rest store2
    | Except.error e => Except.error (e, store)

/-- The handler `resize` (lines 31-53): the sizes are read from the window, the
renderer gets them and the pixel ratio clamped to 2, and every registered
material with a `resolution` cell gets the sizes times `window.devicePixelRatio`.
When the loop throws, the call ends with the error and the experience as it is
at that point: the new sizes, the new renderer settings and the uniforms written
before the throw. The camera is left out of the state. -/
def resize (window : Window) (self : Experience) :
    Except (JsError × Experience) Experience :=
  let sizes : Sizes := { width := window.innerWidth, height := window.innerHeight }
  let renderer : Renderer :=
    { width := sizes.width, height := sizes.height, pixelRatio := min window.devicePixelRatio 2 }
  match resize.loop sizes window self.materials self.store with
  | Except.ok store2 =>
    Except.ok { materials := self.materials, store := store2, sizes := sizes, renderer := renderer }
  | Except.error (e, store2) =>
    Except.error
      (e, { materials := self.materials, store := store2, sizes := sizes, renderer := renderer })

/-- The experience a call of `resize` leaves behind, whether it returned or
threw. -/
def resize.after (window : Window) (self : Experience) : Experience :=
  match resize window self with
  | Except.ok s => s
  | Except.error (_, s) => s

/-- The body of the loop of `update` (lines 60-62) for one entry of `materials`. -/
def update.body (elapsedTime : ℚ) (store : Store) (material : Ref) : Store :=
  match (store material).uniforms "time" with
  | some _ => store.write material "time" (UValue.num elapsedTime)
  | none => store

/-- The tick `update` (lines 56-73) with clock reading `elapsedTime`: every
registered material with a `time` cell gets the reading. The controls, the
renderer call and the request for the next frame are outside the state. -/
def update (elapsedTime : ℚ) (self : Experience) : Experience :=
  { self with store := self.materials.foldl (update.body elapsedTime) self.store }

/-! ## The materials the program registers (lines 144-218) -/

/-- The uniforms of the sky material (lines 147-150). -/
def skyUniforms : Uniforms := fun name =>
  if name = "time" then some (UValue.num 0)
  else if name = "resolution" then some (UValue.vec2 1 1)
  else none

/-- The uniforms of the ground material (lines 171-175). -/
def groundUniforms : Uniforms := fun name =>
  if name = "time" then some (UValue.num 0)
  else if name = "resolution" then some (UValue.vec2 1 1)
  else if name = "diffuseTexture" then some (UValue.texture 0)
  else none

/-- The uniforms of the grass material (lines 193-202). -/
def grassUniforms : Uniforms := fun name =>
  if name = "grassParams" then
    some (UValue.vec4 (some (GRASS_SEGMENTS : ℚ)) (some (GRASS_PATCH_SIZE : ℚ))
      (some GRASS_WIDTH) (some GRASS_HEIGHT))
  else if name = "tileDataTexture" then some (UValue.texture 1)
  else if name = "time" then some (UValue.num 0)
  else if name = "resolution" then some (UValue.vec2 1 1)
  else none

/-- A store with the three materials of the program at references 0 (sky),
1 (ground) and 2 (grass); every other reference holds a material with no
uniform. -/
def sceneStore : Store := fun r =>
  if r = 0 then { uniforms := skyUniforms }
  else if r = 1 then { uniforms := groundUniforms }
  else if r = 2 then { uniforms := grassUniforms }
  else { uniforms := fun _ => none }

/-- The experience once the three materials are registered, before the first
`resize`, in a container of the given size. -/
def sceneExperience (width height pixelRatio : ℚ) : Experience :=
  { materials := [0, 1, 2]
    store := sceneStore
    sizes := { width := width, height := height }
    renderer := { width := width, height := height, pixelRatio := min pixelRatio 2 } }

/-! ## The effect of one loop body on the material it visits -/

/-- What the body of the loop of `update` leaves in the material it visits: the
`time` cell, when there is one, holds the clock reading. -/
def Material.withTime (m : Material) (t : ℚ) : Material :=
  match m.uniforms "time" with
  | some _ => { uniforms := Function.update m.uniforms "time" (some (UValue.num t)) }
  | none => m

/-- Whether a value has a `set` method: the two vector kinds do. -/
def UValue.hasSet : UValue → Bool
  | UValue.vec2 _ _ => true
  | UValue.vec4 _ _ _ _ => true
  | UValue.num _ => false
  | UValue.texture _ => false

/-- The value a vector holds once `set(x, y)` has run; other kinds are left as
they are. -/
def UValue.afterSet (v : UValue) (x y : ℚ) : UValue :=
  match v with
  | UValue.vec2 _ _ => UValue.vec2 x y
  | UValue.vec4 _ _ _ _ => UValue.vec4 (some x) (some y) none none
  | UValue.num a => UValue.num a
  | UValue.texture a => UValue.texture a

/-- Whether the body of the loop of `resize` runs through on this material:
it has no `resolution` cell, or the value of that cell has a `set` method. -/
def Material.settable (m : Material) : Bool :=
  match m.uniforms "resolution" with
  | some v => v.hasSet
  | none => true

/-- What the body of the loop of `resize` leaves in a settable material it
visits: the `resolution` cell, when there is one, holds `(x, y)`. -/
def Material.withResolution (m : Material) (x y : ℚ) : Material :=
  match m.uniforms "resolution" with
  | some v => { uniforms := Function.update m.uniforms "resolution" (some (v.afterSet x y)) }
  | none => m

/-- The scene with a fourth registered shader material, at reference 3, whose
`uniforms` object is empty. -/
def sceneWithBare : Experience :=
  { sceneExperience 800 600 2 with materials := [0, 1, 2, 3] }

/-- A store in which material 0 has `resolution: { value: 5 }`, a number, and
every other material has `resolution: { value: new THREE.Vector2(1, 1) }`. -/
def mixedStore : Store := fun r =>
  if r = 0 then
    { uniforms := fun name => if name = "resolution" then some (UValue.num 5) else none }
  else
    { uniforms := fun name => if name = "resolution" then some (UValue.vec2 1 1) else none }

/-- An experience over `mixedStore` with the given `materials` list. -/
def mixedExperience (materials : List Ref) : Experience :=
  { materials := materials
    store := mixedStore
    sizes := { width := 800, height := 600 }
    renderer := { width := 800, height := 600, pixelRatio := 2 } }

/-! ## The index list of createGeometry -/

theorem JsArray.assign_end (a : JsArray) (k : Nat) (v : Int) (h : k = a.length) :
    JsArray.assign a k v = a ++ [some v] := by
  subst h
  simp [JsArray.assign]

theorem createGeometry_body_eq (VERTICES : Int) (i : Nat) (a : JsArray)
    (h : a.length = 12 * i) :
    createGeometry.body VERTICES i a = a ++ segmentBlock VERTICES i := by
  have h2 : a.length = i * 12 := by omega
  simp [createGeometry.body, JsArray.assign, h2, segmentBlock]

theorem segmentBlock_length (VERTICES : Int) (i : Nat) :
    (segmentBlock VERTICES i).length = 12 := by
  simp [segmentBlock]

theorem BuiltUpTo.step (VERTICES : Int) (i : Nat) (a : JsArray)
    (h : BuiltUpTo VERTICES i a) :
    BuiltUpTo VERTICES (i + 1) (createGeometry.body VERTICES i a) := by
  obtain ⟨hlen, hget⟩ := h
  rw [createGeometry_body_eq VERTICES i a hlen]
  refine ⟨by simp [hlen, segmentBlock_length]; omega, ?_⟩
  intro j k hj hk
  by_cases hji : j < i
  · rw [List.getElem?_append_left (by omega)]
    exact hget j k hji hk
  · have hje : j = i := by omega
    subst hje
    rw [List.getElem?_append_right (by omega)]
    congr 1
    omega

theorem createGeometry.loop_builds (segments VERTICES : Int) :
    ∀ (d i : Nat) (a : JsArray), segments.toNat - i = d → i ≤ segments.toNat →
      BuiltUpTo VERTICES i a →
      BuiltUpTo VERTICES segments.toNat (createGeometry.loop segments VERTICES i a) := by
  intro d
  induction d with
  | zero =>
    intro i a hd hi h
    have hie : i = segments.toNat := by omega
    rw [createGeometry.loop, if_neg (by omega)]
    rw [← hie]
    exact h
  | succ d ih =>
    intro i a hd hi h
    rw [createGeometry.loop, if_pos (by omega)]
    exact ih (i + 1) _ (by omega) (by omega) (BuiltUpTo.step VERTICES i a h)

theorem createGeometry.loop_built (segments VERTICES : Int) :
    BuiltUpTo VERTICES segments.toNat (createGeometry.loop segments VERTICES 0 []) :=
  createGeometry.loop_builds segments VERTICES segments.toNat 0 [] (by omega) (by omega)
    ⟨by simp, by intro j k hj; omega⟩

theorem createGeometry_eq (segments : Int) :
    createGeometry segments = Except.ok
      { instanceCount := NUM_GRASS
        index := createGeometry.loop segments ((segments + 1) * 2) 0 []
        boundingSphere := { center := (0, 0, 0), radius := 1 + GRASS_PATCH_SIZE * 2 } } := rfl

/-- The value of every slot of a built array, by segment and offset. -/
theorem BuiltUpTo.slot (VERTICES : Int) (n : Nat) (a : JsArray) (h : BuiltUpTo VERTICES n a)
    (p : Nat) (hp : p < 12 * n) :
    a[p]? = (segmentBlock VERTICES (p / 12))[p % 12]? := by
  have := h.2 (p / 12) (p % 12) (by omega) (by omega)
  rwa [show 12 * (p / 12) + p % 12 = p by omega] at this

theorem segmentBlock_slot (VERTICES : Int) (j k : Nat) (hk : k < 12) :
    ∃ v : Int, (segmentBlock VERTICES j)[k]? = some (some v) := by
  interval_cases k <;> simp [segmentBlock]

theorem segmentBlock_bounds (segments : Int) (j k : Nat) (v : Int) (hj : (j : Int) < segments)
    (hv : (segmentBlock ((segments + 1) * 2) j)[k]? = some (some v)) :
    0 ≤ v ∧ v < 2 * ((segments + 1) * 2) := by
  have hk : k < 12 := by
    have := (List.getElem?_eq_some_iff.1 hv).1
    simpa [segmentBlock_length] using this
  interval_cases k <;> simp [segmentBlock] at hv <;> omega

/-- C1: for every integer `segments ≥ 1`, the index list that
`createGeometry segments` builds has exactly `segments * 12` slots and none of
them is a hole: every position `0 .. 12 * segments - 1` holds a number. -/
theorem createGeometry_index_length (segments : Int) (h : 1 ≤ segments) :
    ∃ g, createGeometry segments = Except.ok g ∧
      (g.index.length : Int) = segments * 12 ∧
      ∀ p : Nat, (p : Int) < segments * 12 → ∃ v : Int, g.index[p]? = some (some v) := by
  have hb := createGeometry.loop_built segments ((segments + 1) * 2)
  refine ⟨_, createGeometry_eq segments, ?_, ?_⟩
  · show ((createGeometry.loop segments ((segments + 1) * 2) 0 []).length : Int) = segments * 12
    rw [hb.1]
    omega
  · intro p hp
    show ∃ v : Int, (createGeometry.loop segments ((segments + 1) * 2) 0 [])[p]? = some (some v)
    rw [hb.slot _ _ _ p (by omega)]
    exact segmentBlock_slot _ _ _ (by omega)

theorem createGeometry_index_length_witness :
    (1 : Int) ≤ 6 ∧ ∃ g, createGeometry 6 = Except.ok g ∧
      (g.index.length : Int) = 6 * 12 ∧
      ∀ p : Nat, (p : Int) < 6 * 12 → ∃ v : Int, g.index[p]? = some (some v) :=
  ⟨by decide, createGeometry_index_length 6 (by decide)⟩

/-- C2: for every integer `segments ≥ 1`, every value in the index list built by
`createGeometry segments` lies in `[0, 2 * VERTICES)` with
`VERTICES = (segments + 1) * 2`, that is in `[0, 4 * (segments + 1))`. -/
theorem createGeometry_index_range (segments : Int) (h : 1 ≤ segments) :
    ∃ g, createGeometry segments = Except.ok g ∧
      ∀ v : Int, some v ∈ g.index →
        0 ≤ v ∧ v < 2 * ((segments + 1) * 2) ∧ v < 4 * (segments + 1) := by
  have hb := createGeometry.loop_built segments ((segments + 1) * 2)
  refine ⟨_, createGeometry_eq segments, ?_⟩
  intro v hv
  change some v ∈ createGeometry.loop segments ((segments + 1) * 2) 0 [] at hv
  obtain ⟨p, hp⟩ := List.mem_iff_getElem?.1 hv
  have hlt : p < 12 * segments.toNat := by
    have := (List.getElem?_eq_some_iff.1 hp).1
    rwa [hb.1] at this
  rw [hb.slot _ _ _ p hlt] at hp
  have := segmentBlock_bounds segments (p / 12) (p % 12) v (by omega) hp
  omega

theorem createGeometry_index_range_witness :
    (1 : Int) ≤ 6 ∧ ∃ g, createGeometry 6 = Except.ok g ∧
      ∀ v : Int, some v ∈ g.index → 0 ≤ v ∧ v < 2 * ((6 + 1) * 2) ∧ v < 4 * (6 + 1) :=
  ⟨by decide, createGeometry_index_range 6 (by decide)⟩

theorem BuiltUpTo.block (VERTICES : Int) (n : Nat) (a : JsArray) (h : BuiltUpTo VERTICES n a)
    (j : Nat) (hj : j < n) :
    (a.drop (12 * j)).take 12 = segmentBlock VERTICES j := by
  apply List.ext_getElem?
  intro k
  by_cases hk : k < 12
  · rw [List.getElem?_take_of_lt hk, List.getElem?_drop]
    exact h.2 j k hj hk
  · rw [List.getElem?_take_eq_none (by omega)]
    symm
    apply List.getElem?_eq_none
    rw [segmentBlock_length]
    omega

theorem BuiltUpTo.triangles (VERTICES : Int) (n : Nat) (a : JsArray)
    (h : BuiltUpTo VERTICES n a) (j : Nat) (hj : j < n) :
    triangleAt a (4 * j) = some ((j : Int) * 2 + 0, (j : Int) * 2 + 1, (j : Int) * 2 + 2) ∧
    triangleAt a (4 * j + 1) = some ((j : Int) * 2 + 2, (j : Int) * 2 + 1, (j : Int) * 2 + 3) ∧
    triangleAt a (4 * j + 2) =
      some (VERTICES + (j : Int) * 2 + 2, VERTICES + (j : Int) * 2 + 1,
        VERTICES + (j : Int) * 2 + 0) ∧
    triangleAt a (4 * j + 3) =
      some (VERTICES + (j : Int) * 2 + 3, VERTICES + (j : Int) * 2 + 1,
        VERTICES + (j : Int) * 2 + 2) := by
  have e : ∀ k : Nat, k < 12 → ∀ p : Nat, p = 12 * j + k →
      a[p]? = (segmentBlock VERTICES j)[k]? := by
    intro k hk p hp
    subst hp
    exact h.2 j k hj hk
  refine ⟨?_, ?_, ?_, ?_⟩
  · simp only [triangleAt]
    rw [e 0 (by omega) _ (by omega), e 1 (by omega) _ (by omega), e 2 (by omega) _ (by omega)]
    simp [segmentBlock]
  · simp only [triangleAt]
    rw [e 3 (by omega) _ (by omega), e 4 (by omega) _ (by omega), e 5 (by omega) _ (by omega)]
    simp [segmentBlock]
  · simp only [triangleAt]
    rw [e 6 (by omega) _ (by omega), e 7 (by omega) _ (by omega), e 8 (by omega) _ (by omega)]
    simp [segmentBlock]
  · simp only [triangleAt]
    rw [e 9 (by omega) _ (by omega), e 10 (by omega) _ (by omega), e 11 (by omega) _ (by omega)]
    simp [segmentBlock]

/-- C9: for every `segments ≥ 1` and every segment `i` in `[0, segments)`, with
`vi = 2 * i` and `fi = (segments + 1) * 2 + vi`, the twelve slots
`12 * i .. 12 * i + 11` of the list built by `createGeometry segments` hold
`vi+0, vi+1, vi+2, vi+2, vi+1, vi+3, fi+2, fi+1, fi+0, fi+3, fi+1, fi+2`, in
that order. -/
theorem createGeometry_segment_indices (segments : Int) (h : 1 ≤ segments) (i : Nat)
    (hi : (i : Int) < segments) :
    ∃ g, createGeometry segments = Except.ok g ∧
      (g.index.drop (12 * i)).take 12 =
        [some (2 * (i : Int) + 0), some (2 * (i : Int) + 1), some (2 * (i : Int) + 2),
         some (2 * (i : Int) + 2), some (2 * (i : Int) + 1), some (2 * (i : Int) + 3),
         some ((segments + 1) * 2 + 2 * (i : Int) + 2),
         some ((segments + 1) * 2 + 2 * (i : Int) + 1),
         some ((segments + 1) * 2 + 2 * (i : Int) + 0),
         some ((segments + 1) * 2 + 2 * (i : Int) + 3),
         some ((segments + 1) * 2 + 2 * (i : Int) + 1),
         some ((segments + 1) * 2 + 2 * (i : Int) + 2)] := by
  have hb := createGeometry.loop_built segments ((segments + 1) * 2)
  refine ⟨_, createGeometry_eq segments, ?_⟩
  show ((createGeometry.loop segments ((segments + 1) * 2) 0 []).drop (12 * i)).take 12 = _
  rw [hb.block _ _ _ i (by omega)]
  simp [segmentBlock, mul_comm]

theorem createGeometry_segment_indices_witness :
    (1 : Int) ≤ 6 ∧ ((5 : Nat) : Int) < 6 ∧
    ∃ g, createGeometry 6 = Except.ok g ∧
      (g.index.drop (12 * 5)).take 12 =
        [some (2 * ((5 : Nat) : Int) + 0), some (2 * ((5 : Nat) : Int) + 1),
         some (2 * ((5 : Nat) : Int) + 2), some (2 * ((5 : Nat) : Int) + 2),
         some (2 * ((5 : Nat) : Int) + 1), some (2 * ((5 : Nat) : Int) + 3),
         some ((6 + 1) * 2 + 2 * ((5 : Nat) : Int) + 2),
         some ((6 + 1) * 2 + 2 * ((5 : Nat) : Int) + 1),
         some ((6 + 1) * 2 + 2 * ((5 : Nat) : Int) + 0),
         some ((6 + 1) * 2 + 2 * ((5 : Nat) : Int) + 3),
         some ((6 + 1) * 2 + 2 * ((5 : Nat) : Int) + 1),
         some ((6 + 1) * 2 + 2 * ((5 : Nat) : Int) + 2)] :=
  ⟨by decide, by decide, createGeometry_segment_indices 6 (by decide) 5 (by decide)⟩

/-- C10: for every `segments ≥ 1` the back face is the mirror of the front face.
In segment `i`, triangles `4i` and `4i+1` are the front ones and `4i+2`, `4i+3`
the back ones; back triangle `k` is front triangle `k` with its three indices in
reversed order, each shifted by `VERTICES = (segments + 1) * 2`. The front
indices lie in `[0, VERTICES)`, the back ones in `[VERTICES, 2 * VERTICES)`, and
the three indices of every triangle are pairwise distinct. -/
theorem createGeometry_back_mirrors_front (segments : Int) (h : 1 ≤ segments) (i : Nat)
    (hi : (i : Int) < segments) (k : Nat) (hk : k < 2) :
    ∃ g, createGeometry segments = Except.ok g ∧
      ∃ a b c : Int,
        triangleAt g.index (4 * i + k) = some (a, b, c) ∧
        triangleAt g.index (4 * i + 2 + k) =
          some (c + (segments + 1) * 2, b + (segments + 1) * 2, a + (segments + 1) * 2) ∧
        (0 ≤ a ∧ a < (segments + 1) * 2) ∧ (0 ≤ b ∧ b < (segments + 1) * 2) ∧
        (0 ≤ c ∧ c < (segments + 1) * 2) ∧
        ((segments + 1) * 2 ≤ a + (segments + 1) * 2 ∧
          a + (segments + 1) * 2 < 2 * ((segments + 1) * 2)) ∧
        ((segments + 1) * 2 ≤ b + (segments + 1) * 2 ∧
          b + (segments + 1) * 2 < 2 * ((segments + 1) * 2)) ∧
        ((segments + 1) * 2 ≤ c + (segments + 1) * 2 ∧
          c + (segments + 1) * 2 < 2 * ((segments + 1) * 2)) ∧
        a ≠ b ∧ b ≠ c ∧ a ≠ c := by
  have hb := createGeometry.loop_built segments ((segments + 1) * 2)
  obtain ⟨t0, t1, t2, t3⟩ := hb.triangles _ _ _ i (by omega)
  refine ⟨_, createGeometry_eq segments, ?_⟩
  show ∃ a b c : Int,
    triangleAt (createGeometry.loop segments ((segments + 1) * 2) 0 []) (4 * i + k) = _ ∧
    triangleAt (createGeometry.loop segments ((segments + 1) * 2) 0 []) (4 * i + 2 + k) = _ ∧ _
  interval_cases k
  · refine ⟨_, _, _, t0, ?_, ?_⟩
    · rw [t2]
      simp only [Option.some.injEq, Prod.mk.injEq]
      omega
    · omega
  · refine ⟨_, _, _, t1, ?_, ?_⟩
    · rw [show 4 * i + 2 + 1 = 4 * i + 3 by omega, t3]
      simp only [Option.some.injEq, Prod.mk.injEq]
      omega
    · omega

theorem createGeometry_back_mirrors_front_witness :
    (1 : Int) ≤ 6 ∧ ((5 : Nat) : Int) < 6 ∧ (1 : Nat) < 2 ∧
    ∃ g, createGeometry 6 = Except.ok g ∧
      ∃ a b c : Int,
        triangleAt g.index (4 * 5 + 1) = some (a, b, c) ∧
        triangleAt g.index (4 * 5 + 2 + 1) =
          some (c + (6 + 1) * 2, b + (6 + 1) * 2, a + (6 + 1) * 2) ∧
        (0 ≤ a ∧ a < (6 + 1) * 2) ∧ (0 ≤ b ∧ b < (6 + 1) * 2) ∧
        (0 ≤ c ∧ c < (6 + 1) * 2) ∧
        ((6 + 1) * 2 ≤ a + (6 + 1) * 2 ∧ a + (6 + 1) * 2 < 2 * ((6 + 1) * 2)) ∧
        ((6 + 1) * 2 ≤ b + (6 + 1) * 2 ∧ b + (6 + 1) * 2 < 2 * ((6 + 1) * 2)) ∧
        ((6 + 1) * 2 ≤ c + (6 + 1) * 2 ∧ c + (6 + 1) * 2 < 2 * ((6 + 1) * 2)) ∧
        a ≠ b ∧ b ≠ c ∧ a ≠ c :=
  ⟨by decide, by decide, by decide,
    createGeometry_back_mirrors_front 6 (by decide) 5 (by decide) 1 (by decide)⟩

theorem createGeometry.loop_nonpos (segments VERTICES : Int) (h : segments ≤ 0) :
    createGeometry.loop segments VERTICES 0 [] = [] := by
  rw [createGeometry.loop, if_neg (by omega)]

/-- C3, as the code behaves at the inputs the claim names: `createGeometry 0` and
`createGeometry (-1)` do not fail; both return a geometry, with an empty index
list, the instance count 32768 and the bounding sphere of radius 51. -/
theorem createGeometry_zero_returns :
    createGeometry 0 = Except.ok
      { instanceCount := 32768, index := [],
        boundingSphere := { center := (0, 0, 0), radius := 51 } } ∧
    createGeometry (-1) = Except.ok
      { instanceCount := 32768, index := [],
        boundingSphere := { center := (0, 0, 0), radius := 51 } } := by
  constructor
  · rw [createGeometry_eq, createGeometry.loop_nonpos 0 _ (by decide)]
    rfl
  · rw [createGeometry_eq, createGeometry.loop_nonpos (-1) _ (by decide)]
    rfl

/-- C3, amended: for every `segments ≤ 0` the call `createGeometry segments`
returns without an error; the loop body never runs, so the geometry it returns
has an empty index list, and it has the instance count `NUM_GRASS` and the
bounding sphere of radius `1 + GRASS_PATCH_SIZE * 2` around the origin. -/
theorem createGeometry_nonpositive (segments : Int) (h : segments ≤ 0) :
    createGeometry segments = Except.ok
      { instanceCount := NUM_GRASS, index := [],
        boundingSphere := { center := (0, 0, 0), radius := 1 + GRASS_PATCH_SIZE * 2 } } := by
  rw [createGeometry_eq, createGeometry.loop_nonpos segments _ h]

theorem createGeometry_nonpositive_witness :
    (-7 : Int) ≤ 0 ∧ createGeometry (-7) = Except.ok
      { instanceCount := NUM_GRASS, index := [],
        boundingSphere := { center := (0, 0, 0), radius := 1 + GRASS_PATCH_SIZE * 2 } } :=
  ⟨by decide, createGeometry_nonpositive (-7) (by decide)⟩

/-- C6: for every `segments`, the geometry returned by `createGeometry` has a
bounding sphere centred at the origin with radius `1 + 2 * GRASS_PATCH_SIZE`,
whatever `segments` is; with the constants of the repository (6 segments, patch
size 25, 32768 instances) the radius is 51. -/
theorem createGeometry_boundingSphere (segments : Int) :
    ∃ g, createGeometry segments = Except.ok g ∧
      g.boundingSphere.center = (0, 0, 0) ∧
      g.boundingSphere.radius = 1 + 2 * GRASS_PATCH_SIZE ∧
      g.boundingSphere.radius = 51 ∧
      g.instanceCount = NUM_GRASS ∧
      GRASS_SEGMENTS = 6 ∧ GRASS_PATCH_SIZE = 25 ∧ NUM_GRASS = 32768 := by
  refine ⟨_, createGeometry_eq segments, rfl, ?_, ?_, rfl, rfl, rfl, ?_⟩ <;>
    simp [GRASS_PATCH_SIZE, NUM_GRASS]

/-! ## The uniform writers -/

theorem UValue.set_eq (v : UValue) (x y : ℚ) :
    v.set x y = if v.hasSet then Except.ok (v.afterSet x y) else Except.error JsError.typeError := by
  cases v <;> rfl

theorem update_body_eq (t : ℚ) (store : Store) (r : Ref) :
    update.body t store r = Function.update store r ((store r).withTime t) := by
  unfold update.body Material.withTime Store.write
  cases h : (store r).uniforms "time" with
  | none => simp
  | some v => simp

theorem Material.withTime_idem (m : Material) (t : ℚ) :
    (m.withTime t).withTime t = m.withTime t := by
  unfold Material.withTime
  cases h : m.uniforms "time" with
  | none => simp [h]
  | some v => simp

/-- The store after a loop that applies an idempotent change `f` to each visited
material: the change is applied once to every listed material. -/
theorem foldl_update_store (f : Material → Material) (hf : ∀ m, f (f m) = f m) :
    ∀ (ms : List Ref) (store : Store) (r : Ref),
      (ms.foldl (fun st x => Function.update st x (f (st x))) store) r =
        if r ∈ ms then f (store r) else store r := by
  intro ms
  induction ms with
  | nil => intro store r; simp
  | cons x ms ih =>
    intro store r
    rw [List.foldl_cons, ih]
    by_cases hx : r = x
    · subst hx
      simp [hf]
    · simp [hx, Function.update_noteq hx]

theorem update_store (t : ℚ) (s : Experience) (r : Ref) :
    (update t s).store r = if r ∈ s.materials then (s.store r).withTime t else s.store r := by
  have hb : update.body t = fun st x => Function.update st x ((fun m => Material.withTime m t) (st x)) := by
    funext st x
    exact update_body_eq t st x
  show (s.materials.foldl (update.body t) s.store) r = _
  rw [hb]
  exact foldl_update_store (fun m => Material.withTime m t) (fun m => Material.withTime_idem m t) _ _ _

theorem resize_body_eq (sizes : Sizes) (w : Window) (store : Store) (r : Ref) :
    resize.body sizes w store r =
      if (store r).settable then
        Except.ok (Function.update store r
          ((store r).withResolution (sizes.width * w.devicePixelRatio)
            (sizes.height * w.devicePixelRatio)))
      else Except.error JsError.typeError := by
  unfold resize.body Material.settable Material.withResolution Store.write
  cases h : (store r).uniforms "resolution" with
  | none => simp
  | some v =>
    simp only [UValue.set_eq]
    cases hs : v.hasSet <;> simp

theorem Material.withResolution_idem (m : Material) (x y : ℚ) :
    (m.withResolution x y).withResolution x y = m.withResolution x y := by
  unfold Material.withResolution
  cases h : m.uniforms "resolution" with
  | none => simp [h]
  | some v => cases v <;> simp [UValue.afterSet]

theorem Material.withResolution_settable (m : Material) (x y : ℚ) :
    (m.withResolution x y).settable = m.settable := by
  unfold Material.withResolution Material.settable
  cases h : m.uniforms "resolution" with
  | none => simp [h]
  | some v => cases v <;> simp [UValue.afterSet, UValue.hasSet]

theorem resize.loop_ok (sizes : Sizes) (w : Window) :
    ∀ (ms : List Ref) (store : Store), (∀ r ∈ ms, (store r).settable = true) →
      resize.loop sizes w ms store = Except.ok (fun r =>
        if r ∈ ms then
          (store r).withResolution (sizes.width * w.devicePixelRatio)
            (sizes.height * w.devicePixelRatio)
        else store r) := by
  intro ms
  induction ms with
  | nil => intro store _; simp [resize.loop]
  | cons x ms ih =>
    intro store h
    have hx : (store x).settable = true := h x (by simp)
    rw [resize.loop, resize_body_eq, if_pos hx]
    simp only
    rw [ih]
    · congr 1
      funext r
      by_cases hr : r = x
      · subst hr
        simp [Material.withResolution_idem]
      · simp [hr, Function.update_noteq hr]
    · intro r hr
      by_cases hrx : r = x
      · subst hrx
        simp [Material.withResolution_settable, hx]
      · rw [Function.update_noteq hrx]
        exact h r (by simp [hr])

theorem resize.loop_throw (sizes : Sizes) (w : Window) :
    ∀ (pre : List Ref) (x : Ref) (post : List Ref) (store : Store),
      (∀ r ∈ pre, (store r).settable = true) → (store x).settable = false →
      resize.loop sizes w (pre ++ x :: post) store = Except.error (JsError.typeError, fun r =>
        if r ∈ pre then
          (store r).withResolution (sizes.width * w.devicePixelRatio)
            (sizes.height * w.devicePixelRatio)
        else store r) := by
  intro pre
  induction pre with
  | nil =>
    intro x post store _ hx
    rw [List.nil_append, resize.loop, resize_body_eq, if_neg (by simp [hx])]
    simp
  | cons p pre ih =>
    intro x post store h hx
    have hp : (store p).settable = true := h p (by simp)
    have hxp : x ≠ p := by
      intro e
      subst e
      rw [hp] at hx
      cases hx
    rw [List.cons_append, resize.loop, resize_body_eq, if_pos hp]
    simp only
    rw [ih]
    · congr 2
      funext r
      by_cases hr : r = p
      · subst hr
        simp [Material.withResolution_idem]
      · simp [hr, Function.update_noteq hr]
    · intro r hr
      by_cases hrp : r = p
      · subst hrp
        simp [Material.withResolution_settable, hp]
      · rw [Function.update_noteq hrp]
        exact h r (by simp [hr])
    · rw [Function.update_noteq hxp]
      exact hx

theorem resize_ok (w : Window) (s : Experience)
    (h : ∀ r ∈ s.materials, (s.store r).settable = true) :
    resize w s = Except.ok
      { materials := s.materials
        store := fun r =>
          if r ∈ s.materials then
            (s.store r).withResolution (w.innerWidth * w.devicePixelRatio)
              (w.innerHeight * w.devicePixelRatio)
          else s.store r
        sizes := { width := w.innerWidth, height := w.innerHeight }
        renderer :=
          { width := w.innerWidth, height := w.innerHeight
            pixelRatio := min w.devicePixelRatio 2 } } := by
  unfold resize
  simp only
  rw [resize.loop_ok _ _ _ _ h]

theorem resize_throw (w : Window) (s : Experience) (pre : List Ref) (x : Ref)
    (post : List Ref) (hm : s.materials = pre ++ x :: post)
    (h : ∀ r ∈ pre, (s.store r).settable = true) (hx : (s.store x).settable = false) :
    resize w s = Except.error (JsError.typeError,
      { materials := s.materials
        store := fun r =>
          if r ∈ pre then
            (s.store r).withResolution (w.innerWidth * w.devicePixelRatio)
              (w.innerHeight * w.devicePixelRatio)
          else s.store r
        sizes := { width := w.innerWidth, height := w.innerHeight }
        renderer :=
          { width := w.innerWidth, height := w.innerHeight
            pixelRatio := min w.devicePixelRatio 2 } }) := by
  unfold resize
  simp only
  rw [hm, resize.loop_throw _ _ pre x post _ h hx]

theorem Material.settable_of_hasSet (m : Material)
    (h : ∀ v, m.uniforms "resolution" = some v → v.hasSet = true) : m.settable = true := by
  unfold Material.settable
  cases hv : m.uniforms "resolution" with
  | none => rfl
  | some v => exact h v hv

theorem Material.withTime_other (m : Material) (t : ℚ) (name : String) (h : name ≠ "time") :
    (m.withTime t).uniforms name = m.uniforms name := by
  unfold Material.withTime
  cases m.uniforms "time" with
  | none => rfl
  | some v => simp [Function.update_noteq h]

theorem Material.withResolution_other (m : Material) (x y : ℚ) (name : String)
    (h : name ≠ "resolution") :
    (m.withResolution x y).uniforms name = m.uniforms name := by
  unfold Material.withResolution
  cases m.uniforms "resolution" with
  | none => rfl
  | some v => simp [Function.update_noteq h]

theorem Material.withTime_absent (m : Material) (t : ℚ) (h : m.uniforms "time" = none) :
    m.withTime t = m := by
  unfold Material.withTime
  rw [h]

theorem Material.withResolution_absent (m : Material) (x y : ℚ)
    (h : m.uniforms "resolution" = none) : m.withResolution x y = m := by
  unfold Material.withResolution
  rw [h]

/-- C5: for every list of registered materials and every clock reading `t`,
after one run of `update` with reading `t` every registered material that has a
`time` uniform holds exactly `t` in it, whatever it held before. -/
theorem update_writes_time (s : Experience) (t : ℚ) (r : Ref) (hr : r ∈ s.materials)
    (hv : ((s.store r).uniforms "time").isSome = true) :
    ((update t s).store r).uniforms "time" = some (UValue.num t) := by
  rw [update_store, if_pos hr]
  unfold Material.withTime
  cases h : (s.store r).uniforms "time" with
  | none => rw [h] at hv; cases hv
  | some v => simp

theorem update_writes_time_witness :
    (2 : Ref) ∈ (sceneExperience 800 600 2).materials ∧
    (((sceneExperience 800 600 2).store 2).uniforms "time").isSome = true ∧
    ((update (7 / 2) (sceneExperience 800 600 2)).store 2).uniforms "time" =
      some (UValue.num (7 / 2)) :=
  ⟨by simp [sceneExperience], by simp [sceneExperience, sceneStore, grassUniforms],
    update_writes_time (sceneExperience 800 600 2) (7 / 2) 2 (by simp [sceneExperience])
      (by simp [sceneExperience, sceneStore, grassUniforms])⟩

/-- C7, as the code behaves when `resize` throws: over `mixedStore`, where the
`resolution` value of material 0 is a number, the list `[1, 0, 1]` has material 1
twice and `[0, 1]` is the list without the duplicate. Both calls end with a
`TypeError` at material 0, but with the duplicate material 1 was written before
the throw and holds `(2400, 1800)`, and without it material 1 still holds
`(1, 1)`: the uniform values after the two calls differ. -/
theorem duplicate_registration_resize_throws :
    (1 : Ref) ∈ ([] : List Ref) ++ [0, 1] ∧
    (∃ st, resize { innerWidth := 800, innerHeight := 600, devicePixelRatio := 3 }
        (mixedExperience ([] ++ 1 :: [0, 1])) = Except.error (JsError.typeError, st)) ∧
    (∃ st, resize { innerWidth := 800, innerHeight := 600, devicePixelRatio := 3 }
        (mixedExperience ([] ++ [0, 1])) = Except.error (JsError.typeError, st)) ∧
    ((resize.after { innerWidth := 800, innerHeight := 600, devicePixelRatio := 3 }
        (mixedExperience ([] ++ 1 :: [0, 1]))).store 1).uniforms "resolution" =
      some (UValue.vec2 2400 1800) ∧
    ((resize.after { innerWidth := 800, innerHeight := 600, devicePixelRatio := 3 }
        (mixedExperience ([] ++ [0, 1]))).store 1).uniforms "resolution" =
      some (UValue.vec2 1 1) ∧
    (resize.after { innerWidth := 800, innerHeight := 600, devicePixelRatio := 3 }
        (mixedExperience ([] ++ 1 :: [0, 1]))).store ≠
      (resize.after { innerWidth := 800, innerHeight := 600, devicePixelRatio := 3 }
        (mixedExperience ([] ++ [0, 1]))).store := by
  have h1 := resize_throw { innerWidth := 800, innerHeight := 600, devicePixelRatio := 3 }
    (mixedExperience ([] ++ 1 :: [0, 1])) [1] 0 [1] (by rfl)
    (by intro r hr
        simp only [List.mem_singleton] at hr
        subst hr
        simp [mixedExperience, mixedStore, Material.settable, UValue.hasSet])
    (by simp [mixedExperience, mixedStore, Material.settable, UValue.hasSet])
  have h2 := resize_throw { innerWidth := 800, innerHeight := 600, devicePixelRatio := 3 }
    (mixedExperience ([] ++ [0, 1])) [] 0 [1] (by rfl)
    (by intro r hr; simp at hr)
    (by simp [mixedExperience, mixedStore, Material.settable, UValue.hasSet])
  have v1 : ((resize.after { innerWidth := 800, innerHeight := 600, devicePixelRatio := 3 }
      (mixedExperience ([] ++ 1 :: [0, 1]))).store 1).uniforms "resolution" =
      some (UValue.vec2 2400 1800) := by
    unfold resize.after
    rw [h1]
    simp [mixedExperience, mixedStore, Material.withResolution, UValue.afterSet]
    norm_num
  have v2 : ((resize.after { innerWidth := 800, innerHeight := 600, devicePixelRatio := 3 }
      (mixedExperience ([] ++ [0, 1]))).store 1).uniforms "resolution" =
      some (UValue.vec2 1 1) := by
    unfold resize.after
    rw [h2]
    simp [mixedExperience, mixedStore]
  refine ⟨by decide, ⟨_, h1⟩, ⟨_, h2⟩, v1, v2, ?_⟩
  intro he
  rw [he, v2] at v1
  simp at v1

/-- C7, amended: registering a material a second time does not change the result
of a tick: for a `materials` list with a duplicated entry `r` and the list
without that duplicate, the uniform values after `update` are the same. It does
not change the result of a resize either when the `resolution` value of every
registered material that has one is a vector: then `resize` returns on both
lists, with the same uniform values, sizes and renderer settings. -/
theorem duplicate_registration (s : Experience) (l1 l2 : List Ref) (r : Ref)
    (hr : r ∈ l1 ++ l2) (t : ℚ) (w : Window) :
    (update t { s with materials := l1 ++ r :: l2 }).store =
      (update t { s with materials := l1 ++ l2 }).store ∧
    ((∀ x ∈ l1 ++ l2, ∀ v, (s.store x).uniforms "resolution" = some v → v.hasSet = true) →
      ∃ a b, resize w { s with materials := l1 ++ r :: l2 } = Except.ok a ∧
        resize w { s with materials := l1 ++ l2 } = Except.ok b ∧
        a.store = b.store ∧ a.sizes = b.sizes ∧ a.renderer = b.renderer) := by
  have hmem : ∀ x : Ref, x ∈ l1 ++ r :: l2 ↔ x ∈ l1 ++ l2 := by
    intro x
    simp only [List.mem_append, List.mem_cons] at hr ⊢
    constructor
    · rintro (h | h | h)
      · exact Or.inl h
      · subst h; exact hr
      · exact Or.inr h
    · rintro (h | h)
      · exact Or.inl h
      · exact Or.inr (Or.inr h)
  constructor
  · funext x
    rw [update_store, update_store]
    simp only [hmem]
  · intro hwf
    have h : ∀ x ∈ l1 ++ l2, (s.store x).settable = true :=
      fun x hx => Material.settable_of_hasSet _ (hwf x hx)
    refine ⟨_, _, resize_ok w { s with materials := l1 ++ r :: l2 }
      (fun x hx => h x ((hmem x).1 hx)), resize_ok w { s with materials := l1 ++ l2 } h,
      ?_, rfl, rfl⟩
    funext x
    simp only [hmem]

theorem duplicate_registration_witness :
    (2 : Ref) ∈ [0, 1, 2] ++ ([] : List Ref) ∧
    (∀ x ∈ [0, 1, 2] ++ ([] : List Ref), ∀ v,
      ((sceneExperience 800 600 2).store x).uniforms "resolution" = some v →
        v.hasSet = true) ∧
    (update 5 { sceneExperience 800 600 2 with materials := [0, 1, 2] ++ 2 :: [] }).store =
      (update 5 { sceneExperience 800 600 2 with materials := [0, 1, 2] ++ [] }).store ∧
    (∃ a b,
      resize { innerWidth := 800, innerHeight := 600, devicePixelRatio := 2 }
        { sceneExperience 800 600 2 with materials := [0, 1, 2] ++ 2 :: [] } = Except.ok a ∧
      resize { innerWidth := 800, innerHeight := 600, devicePixelRatio := 2 }
        { sceneExperience 800 600 2 with materials := [0, 1, 2] ++ [] } = Except.ok b ∧
      a.store = b.store ∧ a.sizes = b.sizes ∧ a.renderer = b.renderer) :=
  have hwf : ∀ x ∈ [0, 1, 2] ++ ([] : List Ref), ∀ v,
      ((sceneExperience 800 600 2).store x).uniforms "resolution" = some v →
        v.hasSet = true := by
    intro x hx v hv
    simp only [List.append_nil, List.mem_cons, List.mem_singleton, List.not_mem_nil,
      or_false] at hx
    rcases hx with h | h | h <;> subst h <;>
      simp [sceneExperience, sceneStore, skyUniforms, groundUniforms, grassUniforms] at hv <;>
      subst hv <;> rfl
  ⟨by decide, hwf,
    (duplicate_registration (sceneExperience 800 600 2) [0, 1, 2] [] 2 (by decide) 5
      { innerWidth := 800, innerHeight := 600, devicePixelRatio := 2 }).1,
    (duplicate_registration (sceneExperience 800 600 2) [0, 1, 2] [] 2 (by decide) 5
      { innerWidth := 800, innerHeight := 600, devicePixelRatio := 2 }).2 hwf⟩

/-- C8: materials without a `resolution` uniform never make `resize` fail: when
the `resolution` value of every registered material that has one is a vector,
`resize` returns, whatever the other materials hold. It leaves every material
without a `resolution` uniform as it was, and in every material it leaves all
uniforms other than `resolution` (among them `time`) as they were. In the same
way `update` leaves every material without a `time` uniform as it was and changes
no uniform other than `time`; it changes neither the list nor the sizes nor the
renderer. -/
theorem writers_frame (s : Experience) (w : Window) (t : ℚ)
    (hwf : ∀ r ∈ s.materials, ∀ v, (s.store r).uniforms "resolution" = some v →
      v.hasSet = true) :
    (∃ s2, resize w s = Except.ok s2 ∧
      s2.materials = s.materials ∧
      (∀ r, (s.store r).uniforms "resolution" = none → s2.store r = s.store r) ∧
      (∀ r name, name ≠ "resolution" →
        (s2.store r).uniforms name = (s.store r).uniforms name)) ∧
    ((update t s).materials = s.materials ∧
      (update t s).sizes = s.sizes ∧
      (update t s).renderer = s.renderer ∧
      (∀ r, (s.store r).uniforms "time" = none → (update t s).store r = s.store r) ∧
      (∀ r name, name ≠ "time" →
        ((update t s).store r).uniforms name = (s.store r).uniforms name)) := by
  constructor
  · refine ⟨_, resize_ok w s (fun r hr => Material.settable_of_hasSet _ (hwf r hr)), rfl, ?_, ?_⟩
    · intro r hr
      show (if r ∈ s.materials then _ else _) = _
      split
      · exact Material.withResolution_absent _ _ _ hr
      · rfl
    · intro r name hn
      show (if r ∈ s.materials then _ else _ : Material).uniforms name = _
      split
      · exact Material.withResolution_other _ _ _ _ hn
      · rfl
  · refine ⟨rfl, rfl, rfl, ?_, ?_⟩
    · intro r hr
      rw [update_store]
      split
      · exact Material.withTime_absent _ _ hr
      · rfl
    · intro r name hn
      rw [update_store]
      split
      · exact Material.withTime_other _ _ _ hn
      · rfl

theorem writers_frame_witness :
    (∀ r ∈ sceneWithBare.materials, ∀ v,
      (sceneWithBare.store r).uniforms "resolution" = some v → v.hasSet = true) ∧
    ((∃ s2, resize { innerWidth := 1024, innerHeight := 768, devicePixelRatio := 3 / 2 }
          sceneWithBare = Except.ok s2 ∧
      s2.materials = sceneWithBare.materials ∧
      (∀ r, (sceneWithBare.store r).uniforms "resolution" = none →
        s2.store r = sceneWithBare.store r) ∧
      (∀ r name, name ≠ "resolution" →
        (s2.store r).uniforms name = (sceneWithBare.store r).uniforms name)) ∧
    ((update 5 sceneWithBare).materials = sceneWithBare.materials ∧
      (update 5 sceneWithBare).sizes = sceneWithBare.sizes ∧
      (update 5 sceneWithBare).renderer = sceneWithBare.renderer ∧
      (∀ r, (sceneWithBare.store r).uniforms "time" = none →
        (update 5 sceneWithBare).store r = sceneWithBare.store r) ∧
      (∀ r name, name ≠ "time" →
        ((update 5 sceneWithBare).store r).uniforms name =
          (sceneWithBare.store r).uniforms name))) :=
  have hwf : ∀ r ∈ sceneWithBare.materials, ∀ v,
      (sceneWithBare.store r).uniforms "resolution" = some v → v.hasSet = true := by
    intro r hr v hv
    simp only [sceneWithBare, List.mem_cons, List.mem_singleton, List.not_mem_nil,
      or_false] at hr
    rcases hr with h | h | h | h <;> subst h <;>
      simp [sceneWithBare, sceneExperience, sceneStore, skyUniforms, groundUniforms,
        grassUniforms] at hv <;>
      subst hv <;> rfl
  ⟨hwf, writers_frame sceneWithBare
    { innerWidth := 1024, innerHeight := 768, devicePixelRatio := 3 / 2 } 5 hwf⟩

/-- C4, the code at the input the claim names: after `resize` of the scene in a
window of 800 x 600 with device pixel ratio 3, the renderer has the clamped
ratio 2 but every registered material holds `(2400, 1800)` in `resolution`, the
sizes times the ratio that was not clamped, and not `(1600, 1200)`. With ratio 2
the two agree and the cells hold `(1600, 1200)`. -/
theorem resize_resolution_not_clamped :
    (∃ s2, resize { innerWidth := 800, innerHeight := 600, devicePixelRatio := 3 }
        (sceneExperience 800 600 3) = Except.ok s2 ∧
      s2.renderer.pixelRatio = 2 ∧
      (∀ r ∈ s2.materials, (s2.store r).uniforms "resolution" = some (UValue.vec2 2400 1800)) ∧
      (s2.store 0).uniforms "resolution" ≠
        some (UValue.vec2 (800 * min 3 2) (600 * min 3 2))) ∧
    (∃ s2, resize { innerWidth := 800, innerHeight := 600, devicePixelRatio := 2 }
        (sceneExperience 800 600 2) = Except.ok s2 ∧
      s2.renderer.pixelRatio = 2 ∧
      (∀ r ∈ s2.materials, (s2.store r).uniforms "resolution" =
        some (UValue.vec2 1600 1200))) := by
  have hset : ∀ (a b c : ℚ), ∀ r ∈ (sceneExperience a b c).materials,
      ((sceneExperience a b c).store r).settable = true := by
    intro a b c r hr
    simp only [sceneExperience, List.mem_cons, List.mem_singleton, List.not_mem_nil,
      or_false] at hr
    rcases hr with h | h | h <;> subst h <;>
      simp [sceneExperience, sceneStore, skyUniforms, groundUniforms, grassUniforms,
        Material.settable, UValue.hasSet]
  constructor
  · refine ⟨_, resize_ok _ _ (hset 800 600 3), ?_, ?_, ?_⟩
    · show min (3 : ℚ) 2 = 2
      norm_num
    · intro r hr
      simp only [sceneExperience, List.mem_cons, List.mem_singleton, List.not_mem_nil,
        or_false] at hr
      rcases hr with h | h | h <;> subst h <;>
        simp [sceneExperience, sceneStore, skyUniforms, groundUniforms, grassUniforms,
          Material.withResolution, UValue.afterSet] <;> norm_num
    · simp [sceneExperience, sceneStore, skyUniforms, Material.withResolution,
        UValue.afterSet]
      norm_num
  · refine ⟨_, resize_ok _ _ (hset 800 600 2), ?_, ?_⟩
    · show min (2 : ℚ) 2 = 2
      norm_num
    · intro r hr
      simp only [sceneExperience, List.mem_cons, List.mem_singleton, List.not_mem_nil,
        or_false] at hr
      rcases hr with h | h | h <;> subst h <;>
        simp [sceneExperience, sceneStore, skyUniforms, groundUniforms, grassUniforms,
          Material.withResolution, UValue.afterSet] <;> norm_num

end Grass
